import Mathlib

/-!
# Verification of the ChatDT `AnalystAgent` score engine

Shallow embedding of `src/analyst.py` (class `AnalystAgent` and the
dataclass `CPSBreakdown`).  Python dicts are modelled as insertion-ordered
association lists (`dictInsert` overwrites in place, like `d[k] = v`),
Python floats as exact rationals `ℚ`, and the places where the Python code
could raise (`self.WEIGHTS[k]` lookups, `float(value)` on a non-numeric
non-string, string-times-float multiplication) return `Except String`.
-/

namespace ChatDT

instance {ε α : Type} [DecidableEq ε] [DecidableEq α] : DecidableEq (Except ε α) :=
  fun a b =>
    match a, b with
    | .ok x, .ok y =>
      if h : x = y then .isTrue (by rw [h]) else .isFalse (by simp [h])
    | .error x, .error y =>
      if h : x = y then .isTrue (by rw [h]) else .isFalse (by simp [h])
    | .ok _, .error _ => .isFalse (by simp)
    | .error _, .ok _ => .isFalse (by simp)

/-- First-match lookup in an association list, modelling Python `d[k]` /
`d.get(k)` on a dict represented by its insertion order. -/
def alookup {α : Type} : List (String × α) → String → Option α
  | [], _ => none
  | (k', v) :: t, k => if k' = k then some v else alookup t k

/-- Models Python `d[k] = v` on an insertion-ordered dict: overwrite the
first entry holding the key, or append the pair at the end. -/
def dictInsert {α : Type} (d : List (String × α)) (k : String) (v : α) :
    List (String × α) :=
  match d with
  | [] => [(k, v)]
  | (k', v') :: t => if k' = k then (k, v) :: t else (k', v') :: dictInsert t k v

/-- Models Python `d.update(kvs)`: insert every pair of `kvs` in order. -/
def dictUpdate {α : Type} (d kvs : List (String × α)) : List (String × α) :=
  kvs.foldl (fun acc kv => dictInsert acc kv.1 kv.2) d

/-- A raw statistic value as it arrives from the API payload:
JSON null, a string, a number (int or float, modelled exactly as `ℚ`), or
`other` for any remaining Python value (list, dict, ...) on which
`float(value)` raises `TypeError`. -/
inductive RawValue : Type
  | null : RawValue
  | str (s : String) : RawValue
  | num (q : ℚ) : RawValue
  | other : RawValue
  deriving DecidableEq

/-- A cleaned statistics-dict value: the numeric clean values, plus the
team name string stored under the `"team_name"` key. -/
inductive StatVal : Type
  | num (q : ℚ) : StatVal
  | str (s : String) : StatVal
  deriving DecidableEq

/-- One team's cleaned statistics record (`result["home"]` / `result["away"]`). -/
abbrev StatRecord : Type := List (String × StatVal)

/-- The `CPSBreakdown` dataclass. -/
structure CPSBreakdown : Type where
  threat : ℚ
  control : ℚ
  friction : ℚ
  total : ℚ
  deriving DecidableEq

namespace AnalystAgent

/-- The class-level `WEIGHTS` dict of `AnalystAgent`, in source order. -/
def WEIGHTS : List (String × ℚ) :=
  [("shots_on_goal", 3.0),
   ("shots_inside_box", 2.0),
   ("shots_outside_box", 0.5),
   ("corner_kicks", 1.0),
   ("offsides", -0.3),
   ("possession", 0.4),
   ("pass_accuracy", 0.5),
   ("total_passes", 0.02),
   ("fouls", -0.5),
   ("yellow_cards", -3.0),
   ("red_cards", -10.0)]

/-- The class-level `STAT_MAPPING` dict: API stat labels to internal names. -/
def STAT_MAPPING : List (String × String) :=
  [("Shots on Goal", "shots_on_goal"),
   ("Shots off Goal", "shots_off_goal"),
   ("Total Shots", "total_shots"),
   ("Blocked Shots", "blocked_shots"),
   ("Shots insidebox", "shots_inside_box"),
   ("Shots outsidebox", "shots_outside_box"),
   ("Fouls", "fouls"),
   ("Corner Kicks", "corner_kicks"),
   ("Offsides", "offsides"),
   ("Ball Possession", "possession"),
   ("Yellow Cards", "yellow_cards"),
   ("Red Cards", "red_cards"),
   ("Goalkeeper Saves", "goalkeeper_saves"),
   ("Total passes", "total_passes"),
   ("Passes accurate", "passes_accurate"),
   ("Passes %", "pass_accuracy")]

/-- `AnalystAgent.__init__`: `if weights: self.WEIGHTS.update(weights)`.
The Python `WEIGHTS` dict is a class attribute shared by every instance, so
the constructor is modelled as a state transformer on that shared table:
it receives the current class-level table and returns the (possibly
mutated) table that all instances see afterwards.  `if weights:` is dict
truthiness: `None` and the empty dict skip the update. -/
def init (classWeights : List (String × ℚ))
    (weights : Option (List (String × ℚ))) : List (String × ℚ) :=
  match weights with
  | none => classWeights
  | some ov => if ov.isEmpty then classWeights else dictUpdate classWeights ov

/-- Models Python `str.strip()` (trim whitespace at both ends) on the
character list of a string. -/
def stripChars (cs : List Char) : List Char :=
  ((cs.dropWhile Char.isWhitespace).reverse.dropWhile Char.isWhitespace).reverse

/-- Models `value.replace("%", "")`: for the single-character pattern `"%"`
this removes every `'%'` character. -/
def removePercent (cs : List Char) : List Char :=
  cs.filter (fun c => c ≠ '%')

/-- Consume leading decimal digits: returns their value, how many digits
were consumed, and the rest of the input. -/
def readDigits : List Char → ℕ → ℕ × ℕ × List Char
  | [], acc => (acc, 0, [])
  | c :: cs, acc =>
    if c.isDigit then
      let r := readDigits cs (acc * 10 + (c.toNat - 48))
      (r.1, r.2.1 + 1, r.2.2)
    else (acc, 0, c :: cs)

/-- Consume an optional leading sign, returning `-1` or `1`. -/
def readSign : List Char → ℤ × List Char
  | '-' :: cs => (-1, cs)
  | '+' :: cs => (1, cs)
  | cs => (1, cs)

/-- Parse an optional exponent suffix (`e`/`E`, sign, digits) and finish the
number, requiring the input to be fully consumed. -/
def readExp (sg : ℤ) (mant : ℚ) : List Char → Option ℚ
  | [] => some (sg * mant)
  | c :: cs =>
    if c = 'e' ∨ c = 'E' then
      let s2 := readSign cs
      let d := readDigits s2.2 0
      if d.2.1 = 0 ∨ d.2.2 ≠ [] then none
      else some (sg * mant * (10 : ℚ) ^ (s2.1 * (d.1 : ℤ)))
    else none

/-- Models CPython `float(str)` on an already-stripped string: optional
sign, decimal digits with an optional fractional part, optional exponent.
(The model omits `inf`/`nan` and `_` digit separators, which never occur in
the statistics payloads this code cleans.)  Returns `none` where Python
raises `ValueError`. -/
def parseFloatChars : List Char → Option ℚ
  | cs =>
    let s := readSign cs
    let ip := readDigits s.2 0
    match ip.2.2 with
    | '.' :: cs2 =>
      let fp := readDigits cs2 0
      if ip.2.1 + fp.2.1 = 0 then none
      else readExp s.1 ((ip.1 : ℚ) + (fp.1 : ℚ) / (10 : ℚ) ^ fp.2.1) fp.2.2
    | rest => if ip.2.1 = 0 then none else readExp s.1 (ip.1 : ℚ) rest

/-- `AnalystAgent._clean_stat_value`: `None → 0.0`; strings have `%`
removed and are stripped, then parsed as float with `ValueError` caught to
`0.0`; numbers are cast with `float(value)`; any other value makes
`float(value)` raise `TypeError`. -/
def clean_stat_value : RawValue → Except String ℚ
  | .null => .ok 0
  | .str s =>
    match parseFloatChars (stripChars (removePercent s.data)) with
    | some q => .ok q
    | none => .ok 0
  | .num q => .ok q
  | .other => .error "TypeError: float() argument"

/-- `stats.get(key, 0)` on a cleaned record. -/
def statGet (r : StatRecord) (k : String) : StatVal :=
  (alookup r k).getD (StatVal.num 0)

/-- `self.WEIGHTS[key]`: a plain subscript, raising `KeyError` when the
key is absent. -/
def getW (w : List (String × ℚ)) (k : String) : Except String ℚ :=
  match alookup w k with
  | some v => .ok v
  | none => .error ("KeyError: " ++ k)

/-- `stats.get(key, 0) * weight`: multiplying a string by a float raises
`TypeError` in Python; numbers multiply exactly. -/
def svMul (v : StatVal) (w : ℚ) : Except String ℚ :=
  match v with
  | .num q => .ok (q * w)
  | .str _ => .error "TypeError: sequence * float"

/-- `AnalystAgent.calculate_cps`, evaluated against a weight table `w`
(the class-level `WEIGHTS` current at call time). -/
def calculate_cps (w : List (String × ℚ)) (stats : StatRecord) :
    Except String CPSBreakdown := do
  let t1 ← svMul (statGet stats "shots_on_goal") (← getW w "shots_on_goal")
  let t2 ← svMul (statGet stats "shots_inside_box") (← getW w "shots_inside_box")
  let t3 ← svMul (statGet stats "shots_outside_box") (← getW w "shots_outside_box")
  let t4 ← svMul (statGet stats "corner_kicks") (← getW w "corner_kicks")
  let t5 ← svMul (statGet stats "offsides") (← getW w "offsides")
  let threat := t1 + t2 + t3 + t4 + t5
  let c1 ← svMul (statGet stats "possession") (← getW w "possession")
  let c2 ← svMul (statGet stats "pass_accuracy") (← getW w "pass_accuracy")
  let c3 ← svMul (statGet stats "total_passes") (← getW w "total_passes")
  let control := c1 + c2 + c3
  let f1 ← svMul (statGet stats "fouls") (← getW w "fouls")
  let f2 ← svMul (statGet stats "yellow_cards") (← getW w "yellow_cards")
  let f3 ← svMul (statGet stats "red_cards") (← getW w "red_cards")
  let friction := f1 + f2 + f3
  let total := threat + control + friction
  pure ⟨threat, control, friction, total⟩

/-- `s.lower().replace(" ", "_")` on a provider stat label (the labels are
ASCII, where `Char.toLower` agrees with Python `str.lower`). -/
def normalizeLabel (s : String) : String :=
  ⟨(s.data.map Char.toLower).map (fun c => if c = ' ' then '_' else c)⟩

/-- `self.STAT_MAPPING.get(stat_type, stat_type.lower().replace(" ", "_"))`:
the internal name a provider label is stored under. -/
def internalName (t : String) : String :=
  (alookup STAT_MAPPING t).getD (normalizeLabel t)

/-- One element of a team block's `"statistics"` list.  `stype` models
`stat.get("type", "")` (an absent or null key folds to `""`) and `value`
models `stat.get("value")` (an absent key folds to `RawValue.null`). -/
structure StatEntry : Type where
  stype : String
  value : RawValue
  deriving DecidableEq

/-- One per-team block of the API `"statistics"` payload.  `team` models
`team_stats.get("team", {}).get("name", key)`: `none` when the team name is
missing, in which case the `"home"`/`"away"` key is used instead. -/
structure TeamBlock : Type where
  team : Option String
  statistics : List StatEntry
  deriving DecidableEq

/-- One iteration of the `for stat in team_stats.get("statistics", [])`
loop: clean the raw value and store it under the internal name. -/
def procStat (acc : StatRecord) (stat : StatEntry) : Except String StatRecord := do
  let clean_value ← clean_stat_value stat.value
  pure (dictInsert acc (internalName stat.stype) (StatVal.num clean_value))

/-- The body of the `for i, team_stats in enumerate(stats_data)` loop in
`parse_statistics`, for one team block: clean every value, store it under
its internal name, then store the team name under `"team_name"`. -/
def procBlock (key : String) (r : StatRecord) (b : TeamBlock) :
    Except String StatRecord := do
  let team_name := b.team.getD key
  let r ← b.statistics.foldlM procStat r
  pure (dictInsert r "team_name" (StatVal.str team_name))

/-- The `for i, team_stats in enumerate(stats_data)` loop: index `0` writes
into the `"home"` record, every later index into the `"away"` record. -/
def parseLoop : List TeamBlock → ℕ → StatRecord × StatRecord →
    Except String (StatRecord × StatRecord)
  | [], _, s => .ok s
  | b :: t, i, s =>
    if i = 0 then do
      let hr ← procBlock "home" s.1 b
      parseLoop t (i + 1) (hr, s.2)
    else do
      let ar ← procBlock "away" s.2 b
      parseLoop t (i + 1) (s.1, ar)

/-- `AnalystAgent.parse_statistics`.  The boolean of the result records
whether the `"[ANALYST] WARN: Estadisticas incompletas"` warning was
printed (the degenerate branch `if not stats_data or len(stats_data) < 2`,
equivalent to `len(stats_data) < 2`). -/
def parse_statistics (stats_data : List TeamBlock) :
    Except String (Bool × StatRecord × StatRecord) :=
  if stats_data.length < 2 then .ok (true, [], [])
  else do
    let s ← parseLoop stats_data 0 ([], [])
    pure (false, s.1, s.2)

/-- The comparison step of `AnalystAgent.analyze_match` (the `diff`
threshold cascade): returns `(better_team, dominance)`. -/
def analyze_match_comparison (home_team away_team : String)
    (home_total away_total : ℚ) : String × String :=
  let diff := home_total - away_total
  if diff > 5 then (home_team, "claramente")
  else if diff > 2 then (home_team, "ligeramente")
  else if diff < -5 then (away_team, "claramente")
  else if diff < -2 then (away_team, "ligeramente")
  else ("Empate tecnico", "")

/-- Python truthiness of the `winner` variable in `_generate_verdict`:
`None` and the empty string are falsy. -/
def pyTruthy : Option String → Bool
  | none => false
  | some s => !s.isEmpty

/-- Models the `:.1f` f-string format specifier on an exact rational (the
exact rounding mode of CPython's float formatting is immaterial here: the
verification only uses that the result is some decimal string). -/
def formatFixed1 (q : ℚ) : String :=
  let n : ℤ := ⌊q * 10 + 1 / 2⌋
  let sign := if n < 0 then "-" else ""
  sign ++ toString (n.natAbs / 10) ++ "." ++ toString (n.natAbs % 10)

/-- `AnalystAgent._generate_verdict`, taking the fields it reads:
`match_info` team names and goals, `comparison['better_team']` and
`comparison['difference']`, and both CPS totals. -/
def generate_verdict (home away : String) (home_goals away_goals : ℤ)
    (better : String) (diff : ℚ) (home_total away_total : ℚ) : String :=
  let winner : Option String :=
    if home_goals > away_goals then some home
    else if away_goals > home_goals then some away
    else none
  let winner_cps : ℚ :=
    if home_goals > away_goals then home_total
    else if away_goals > home_goals then away_total
    else 0
  let better_cps : ℚ := if better = home then home_total else away_total
  if pyTruthy winner && (winner == some better) then
    (winner.getD "") ++ " gano y merecio el triunfo. Su CPS de " ++
      formatFixed1 winner_cps ++ " fue superior por " ++ formatFixed1 diff ++
      " puntos."
  else if pyTruthy winner && (better == "Empate tecnico") then
    "Partido parejo. " ++ (winner.getD "") ++ " se llevo los 3 puntos pero " ++
      "el rendimiento fue muy similar (diferencia de solo " ++
      formatFixed1 diff ++ " puntos)."
  else if pyTruthy winner && !(winner == some better) &&
      !(better == "Empate tecnico") then
    "Resultado injusto! " ++ better ++ " fue el mejor equipo con un CPS de " ++
      formatFixed1 better_cps ++ ", superior por " ++ formatFixed1 diff ++
      " puntos, pero " ++ (winner.getD "") ++ " se llevo la victoria. " ++
      "El futbol a veces no premia al mejor."
  else if !pyTruthy winner then
    if better == "Empate tecnico" then
      "Empate justo. Ambos equipos rindieron de manera similar."
    else
      "Empate con sabor a poco para " ++ better ++
        ", que fue superior por " ++ formatFixed1 diff ++ " puntos de CPS."
  else "Analisis completado."

/-- `StatVal.num`-ness of `stats.get(k, 0)` on a record, as a decidable check. -/
def isNumAt (r : StatRecord) (k : String) : Bool :=
  match statGet r k with
  | .num _ => true
  | .str _ => false

/-- The rational carried by `stats.get(k, 0)` when it is numeric. -/
def numVal (r : StatRecord) (k : String) : ℚ :=
  match statGet r k with
  | .num q => q
  | .str _ => 0

/-- The documented input domain of the score engine: every raw value is a
number, a (numeric or percentage) string, or null — never a value on which
`float` raises `TypeError`. -/
def constrainedValue : RawValue → Bool
  | .other => false
  | _ => true

/-- A payload within the documented input domain. -/
def constrainedPayload (stats_data : List TeamBlock) : Prop :=
  ∀ b ∈ stats_data, ∀ st ∈ b.statistics, constrainedValue st.value = true

instance : DecidablePred constrainedPayload := fun sd => by
  unfold constrainedPayload; infer_instance

/-- Invariant of the records built by `parse_statistics`: every string
value sits under the `"team_name"` key; all other keys hold numbers. -/
def numericOk (r : StatRecord) : Prop :=
  ∀ k s, alookup r k = some (StatVal.str s) → k = "team_name"

end AnalystAgent

/-! ## Helper lemmas -/

@[simp]
theorem excBindOk {ε α β : Type} (a : α) (f : α → Except ε β) :
    (Except.ok a : Except ε α) >>= f = f a := rfl

@[simp]
theorem excBindErr {ε α β : Type} (e : ε) (f : α → Except ε β) :
    (Except.error e : Except ε α) >>= f = Except.error e := rfl

@[simp]
theorem excPureEqOk {ε α : Type} (a : α) :
    (pure a : Except ε α) = Except.ok a := rfl

theorem alookup_dictInsert {α : Type} (d : List (String × α)) (k k' : String)
    (v : α) :
    alookup (dictInsert d k v) k' = if k = k' then some v else alookup d k' := by
  induction d with
  | nil => simp [dictInsert, alookup]
  | cons p t ih =>
    obtain ⟨a, b⟩ := p
    by_cases hak : a = k
    · subst hak
      simp only [dictInsert, if_pos rfl, alookup]
      split_ifs <;> simp_all [alookup]
    · simp only [dictInsert, if_neg hak, alookup, ih]
      split_ifs <;> simp_all

theorem alookup_append {α : Type} (xs ys : List (String × α)) (k : String) :
    alookup (xs ++ ys) k = (alookup xs k <|> alookup ys k) := by
  induction xs with
  | nil => simp [alookup]
  | cons p t ih =>
    obtain ⟨a, b⟩ := p
    by_cases hak : a = k <;> simp [alookup, hak, ih]

theorem alookup_eq_none_iff {α : Type} (d : List (String × α)) (k : String) :
    alookup d k = none ↔ k ∉ d.map Prod.fst := by
  induction d with
  | nil => simp [alookup]
  | cons p t ih =>
    obtain ⟨a, b⟩ := p
    by_cases hak : a = k
    · simp [alookup, hak]
    · simp [alookup, hak, ih, Ne.symm hak]

theorem alookup_dictUpdate {α : Type} (ov d : List (String × α)) (k : String) :
    alookup (dictUpdate d ov) k = (alookup ov.reverse k <|> alookup d k) := by
  induction ov generalizing d with
  | nil => simp [dictUpdate, alookup]
  | cons p t ih =>
    obtain ⟨a, b⟩ := p
    have step : dictUpdate d ((a, b) :: t) = dictUpdate (dictInsert d a b) t := rfl
    rw [step, ih, List.reverse_cons, alookup_append]
    cases h : alookup t.reverse k <;>
      simp [alookup, alookup_dictInsert, h] <;>
      split_ifs <;> simp_all [alookup]

namespace AnalystAgent

theorem getW_shots_on_goal : getW WEIGHTS "shots_on_goal" = .ok 3.0 := by
  simp [getW, WEIGHTS, alookup]

theorem getW_shots_inside_box : getW WEIGHTS "shots_inside_box" = .ok 2.0 := by
  simp [getW, WEIGHTS, alookup]

theorem getW_shots_outside_box : getW WEIGHTS "shots_outside_box" = .ok 0.5 := by
  simp [getW, WEIGHTS, alookup]

theorem getW_corner_kicks : getW WEIGHTS "corner_kicks" = .ok 1.0 := by
  simp [getW, WEIGHTS, alookup]

theorem getW_offsides : getW WEIGHTS "offsides" = .ok (-0.3) := by
  simp [getW, WEIGHTS, alookup]

theorem getW_possession : getW WEIGHTS "possession" = .ok 0.4 := by
  simp [getW, WEIGHTS, alookup]

theorem getW_pass_accuracy : getW WEIGHTS "pass_accuracy" = .ok 0.5 := by
  simp [getW, WEIGHTS, alookup]

theorem getW_total_passes : getW WEIGHTS "total_passes" = .ok 0.02 := by
  simp [getW, WEIGHTS, alookup]

theorem getW_fouls : getW WEIGHTS "fouls" = .ok (-0.5) := by
  simp [getW, WEIGHTS, alookup]

theorem getW_yellow_cards : getW WEIGHTS "yellow_cards" = .ok (-3.0) := by
  simp [getW, WEIGHTS, alookup]

theorem getW_red_cards : getW WEIGHTS "red_cards" = .ok (-10.0) := by
  simp [getW, WEIGHTS, alookup]

/-- Fully symbolic evaluation of `calculate_cps`: when all eleven weight
lookups succeed and all eleven statistic reads are numeric, the result is
the weighted-sum breakdown and the total is the sum of the three parts. -/
theorem calculate_cps_eval (w : List (String × ℚ)) (r : StatRecord)
    (a1 a2 a3 a4 a5 b1 b2 b3 c1 c2 c3 : ℚ)
    (v1 v2 v3 v4 v5 u1 u2 u3 x1 x2 x3 : ℚ)
    (hw1 : getW w "shots_on_goal" = .ok a1)
    (hw2 : getW w "shots_inside_box" = .ok a2)
    (hw3 : getW w "shots_outside_box" = .ok a3)
    (hw4 : getW w "corner_kicks" = .ok a4)
    (hw5 : getW w "offsides" = .ok a5)
    (hw6 : getW w "possession" = .ok b1)
    (hw7 : getW w "pass_accuracy" = .ok b2)
    (hw8 : getW w "total_passes" = .ok b3)
    (hw9 : getW w "fouls" = .ok c1)
    (hw10 : getW w "yellow_cards" = .ok c2)
    (hw11 : getW w "red_cards" = .ok c3)
    (hv1 : statGet r "shots_on_goal" = .num v1)
    (hv2 : statGet r "shots_inside_box" = .num v2)
    (hv3 : statGet r "shots_outside_box" = .num v3)
    (hv4 : statGet r "corner_kicks" = .num v4)
    (hv5 : statGet r "offsides" = .num v5)
    (hv6 : statGet r "possession" = .num u1)
    (hv7 : statGet r "pass_accuracy" = .num u2)
    (hv8 : statGet r "total_passes" = .num u3)
    (hv9 : statGet r "fouls" = .num x1)
    (hv10 : statGet r "yellow_cards" = .num x2)
    (hv11 : statGet r "red_cards" = .num x3) :
    calculate_cps w r = .ok
      ⟨v1 * a1 + v2 * a2 + v3 * a3 + v4 * a4 + v5 * a5,
       u1 * b1 + u2 * b2 + u3 * b3,
       x1 * c1 + x2 * c2 + x3 * c3,
       (v1 * a1 + v2 * a2 + v3 * a3 + v4 * a4 + v5 * a5) +
         (u1 * b1 + u2 * b2 + u3 * b3) + (x1 * c1 + x2 * c2 + x3 * c3)⟩ := by
  simp only [calculate_cps, hw1, hw2, hw3, hw4, hw5, hw6, hw7, hw8, hw9, hw10,
    hw11, hv1, hv2, hv3, hv4, hv5, hv6, hv7, hv8, hv9, hv10, hv11, svMul,
    excBindOk, excPureEqOk]

theorem statGet_eq_of_isNumAt (r : StatRecord) (k : String)
    (h : isNumAt r k = true) : statGet r k = .num (numVal r k) := by
  unfold isNumAt at h
  unfold numVal
  cases hs : statGet r k <;> simp [hs] at h ⊢

theorem isNumAt_of_numericOk (r : StatRecord) (h : numericOk r) (k : String)
    (hk : k ≠ "team_name") : isNumAt r k = true := by
  unfold isNumAt statGet
  cases hal : alookup r k with
  | none => simp
  | some v =>
    cases v with
    | num q => simp
    | str s => exact absurd (h k s hal) hk

/-! ## Claims -/

/-- C1: for every cleaned statistics record (all CPS-relevant reads
numeric), `calculate_cps` returns a breakdown with
threat = 3.0·shots_on_goal + 2.0·shots_inside_box + 0.5·shots_outside_box
+ 1.0·corner_kicks − 0.3·offsides, control = 0.4·possession +
0.5·pass_accuracy + 0.02·total_passes, friction = −0.5·fouls −
3.0·yellow_cards − 10.0·red_cards (missing keys read as 0 via `statGet`),
and total exactly equal to threat + control + friction. -/
theorem C1_cps_breakdown_formula (r : StatRecord)
    (h : ∀ k ∈ WEIGHTS.map Prod.fst, isNumAt r k = true) :
    ∃ b, calculate_cps WEIGHTS r = .ok b ∧
      b.threat = 3.0 * numVal r "shots_on_goal" +
        2.0 * numVal r "shots_inside_box" +
        0.5 * numVal r "shots_outside_box" +
        1.0 * numVal r "corner_kicks" - 0.3 * numVal r "offsides" ∧
      b.control = 0.4 * numVal r "possession" +
        0.5 * numVal r "pass_accuracy" + 0.02 * numVal r "total_passes" ∧
      b.friction = -0.5 * numVal r "fouls" - 3.0 * numVal r "yellow_cards" -
        10.0 * numVal r "red_cards" ∧
      b.total = b.threat + b.control + b.friction := by
  have m : ∀ k ∈ WEIGHTS.map Prod.fst, statGet r k = .num (numVal r k) :=
    fun k hk => statGet_eq_of_isNumAt r k (h k hk)
  refine ⟨_, calculate_cps_eval WEIGHTS r _ _ _ _ _ _ _ _ _ _ _ _ _ _ _ _ _ _ _ _ _ _
    getW_shots_on_goal getW_shots_inside_box getW_shots_outside_box
    getW_corner_kicks getW_offsides getW_possession getW_pass_accuracy
    getW_total_passes getW_fouls getW_yellow_cards getW_red_cards
    (m "shots_on_goal" (by decide)) (m "shots_inside_box" (by decide))
    (m "shots_outside_box" (by decide)) (m "corner_kicks" (by decide))
    (m "offsides" (by decide)) (m "possession" (by decide))
    (m "pass_accuracy" (by decide)) (m "total_passes" (by decide))
    (m "fouls" (by decide)) (m "yellow_cards" (by decide))
    (m "red_cards" (by decide)), ?_, ?_, ?_, ?_⟩ <;>
    dsimp only <;> ring

/-- Witness for C1 at a concrete record. -/
theorem C1_cps_breakdown_formula_witness :
    (∀ k ∈ WEIGHTS.map Prod.fst,
      isNumAt [("shots_on_goal", StatVal.num 2), ("fouls", StatVal.num 4),
        ("team_name", StatVal.str "X")] k = true) ∧
    (∃ b, calculate_cps WEIGHTS
        [("shots_on_goal", StatVal.num 2), ("fouls", StatVal.num 4),
         ("team_name", StatVal.str "X")] = .ok b ∧
      b.threat = 3.0 * numVal [("shots_on_goal", StatVal.num 2),
          ("fouls", StatVal.num 4), ("team_name", StatVal.str "X")] "shots_on_goal" +
        2.0 * numVal [("shots_on_goal", StatVal.num 2), ("fouls", StatVal.num 4),
          ("team_name", StatVal.str "X")] "shots_inside_box" +
        0.5 * numVal [("shots_on_goal", StatVal.num 2), ("fouls", StatVal.num 4),
          ("team_name", StatVal.str "X")] "shots_outside_box" +
        1.0 * numVal [("shots_on_goal", StatVal.num 2), ("fouls", StatVal.num 4),
          ("team_name", StatVal.str "X")] "corner_kicks" -
        0.3 * numVal [("shots_on_goal", StatVal.num 2), ("fouls", StatVal.num 4),
          ("team_name", StatVal.str "X")] "offsides" ∧
      b.control = 0.4 * numVal [("shots_on_goal", StatVal.num 2),
          ("fouls", StatVal.num 4), ("team_name", StatVal.str "X")] "possession" +
        0.5 * numVal [("shots_on_goal", StatVal.num 2), ("fouls", StatVal.num 4),
          ("team_name", StatVal.str "X")] "pass_accuracy" +
        0.02 * numVal [("shots_on_goal", StatVal.num 2), ("fouls", StatVal.num 4),
          ("team_name", StatVal.str "X")] "total_passes" ∧
      b.friction = -0.5 * numVal [("shots_on_goal", StatVal.num 2),
          ("fouls", StatVal.num 4), ("team_name", StatVal.str "X")] "fouls" -
        3.0 * numVal [("shots_on_goal", StatVal.num 2), ("fouls", StatVal.num 4),
          ("team_name", StatVal.str "X")] "yellow_cards" -
        10.0 * numVal [("shots_on_goal", StatVal.num 2), ("fouls", StatVal.num 4),
          ("team_name", StatVal.str "X")] "red_cards" ∧
      b.total = b.threat + b.control + b.friction) :=
  ⟨by decide, C1_cps_breakdown_formula _ (by decide)⟩

/-- C2: the comparator on the signed difference d = home.total −
away.total labels d > 5 as home "claramente" (clear), 2 < d ≤ 5 as home
"ligeramente" (slight), d < −5 as away "claramente", −5 ≤ d < −2 as away
"ligeramente", and otherwise the tied sentinel `("Empate tecnico", "")`;
in particular difference 5.0 (107−102) gives "ligeramente" and 6.0
(108−102) gives "claramente" for home. -/
theorem C2_comparator_thresholds (hn an : String) (h a : ℚ) :
    (h - a > 5 → analyze_match_comparison hn an h a = (hn, "claramente")) ∧
    (2 < h - a → h - a ≤ 5 →
      analyze_match_comparison hn an h a = (hn, "ligeramente")) ∧
    (h - a < -5 → analyze_match_comparison hn an h a = (an, "claramente")) ∧
    (-5 ≤ h - a → h - a < -2 →
      analyze_match_comparison hn an h a = (an, "ligeramente")) ∧
    (-2 ≤ h - a → h - a ≤ 2 →
      analyze_match_comparison hn an h a = ("Empate tecnico", "")) ∧
    analyze_match_comparison hn an 107 102 = (hn, "ligeramente") ∧
    analyze_match_comparison hn an 108 102 = (hn, "claramente") := by
  refine ⟨?_, ?_, ?_, ?_, ?_, ?_, ?_⟩
  · intro h1
    unfold analyze_match_comparison
    dsimp only
    split_ifs with p1 p2 p3 p4 <;> first | rfl | linarith
  · intro h1 h2
    unfold analyze_match_comparison
    dsimp only
    split_ifs with p1 p2 p3 p4 <;> first | rfl | linarith
  · intro h1
    unfold analyze_match_comparison
    dsimp only
    split_ifs with p1 p2 p3 p4 <;> first | rfl | linarith
  · intro h1 h2
    unfold analyze_match_comparison
    dsimp only
    split_ifs with p1 p2 p3 p4 <;> first | rfl | linarith
  · intro h1 h2
    unfold analyze_match_comparison
    dsimp only
    split_ifs with p1 p2 p3 p4 <;> first | rfl | linarith
  · norm_num [analyze_match_comparison]
  · norm_num [analyze_match_comparison]

/-- Witness for C2: one concrete instance per threshold band. -/
theorem C2_comparator_thresholds_witness :
    analyze_match_comparison "H" "A" 10 1 = ("H", "claramente") ∧
    analyze_match_comparison "H" "A" 4 1 = ("H", "ligeramente") ∧
    analyze_match_comparison "H" "A" 1 10 = ("A", "claramente") ∧
    analyze_match_comparison "H" "A" 1 4 = ("A", "ligeramente") ∧
    analyze_match_comparison "H" "A" 2 1 = ("Empate tecnico", "") :=
  ⟨(C2_comparator_thresholds "H" "A" 10 1).1 (by norm_num),
   (C2_comparator_thresholds "H" "A" 4 1).2.1 (by norm_num) (by norm_num),
   (C2_comparator_thresholds "H" "A" 1 10).2.2.1 (by norm_num),
   (C2_comparator_thresholds "H" "A" 1 4).2.2.2.1 (by norm_num) (by norm_num),
   (C2_comparator_thresholds "H" "A" 2 1).2.2.2.2.1 (by norm_num) (by norm_num)⟩

/-- C3 counterexample: at signed difference exactly +5 (and −5) the
comparator does NOT resolve to the tied sentinel; it returns the "slight"
label for the corresponding team. -/
theorem C3_counterexample_plus5 :
    analyze_match_comparison "Home" "Away" 105 100 = ("Home", "ligeramente") ∧
    analyze_match_comparison "Home" "Away" 105 100 ≠ ("Empate tecnico", "") ∧
    analyze_match_comparison "Home" "Away" 100 105 = ("Away", "ligeramente") ∧
    analyze_match_comparison "Home" "Away" 100 105 ≠ ("Empate tecnico", "") := by
  have e1 : analyze_match_comparison "Home" "Away" 105 100 =
      ("Home", "ligeramente") := by norm_num [analyze_match_comparison]
  have e2 : analyze_match_comparison "Home" "Away" 100 105 =
      ("Away", "ligeramente") := by norm_num [analyze_match_comparison]
  refine ⟨e1, ?_, e2, ?_⟩ <;> (first | rw [e1] | rw [e2]) <;> decide

/-- C3 (amended): differences exactly +2 and −2 fall into the tied
bucket, while +5 resolves to home-"ligeramente" and −5 to
away-"ligeramente" (the 5 boundary is closed on the "slight" side, not in
the tied bucket). -/
theorem C3_amended_boundaries (hn an : String) (h a : ℚ) :
    (h - a = 2 → analyze_match_comparison hn an h a = ("Empate tecnico", "")) ∧
    (h - a = -2 → analyze_match_comparison hn an h a = ("Empate tecnico", "")) ∧
    (h - a = 5 → analyze_match_comparison hn an h a = (hn, "ligeramente")) ∧
    (h - a = -5 → analyze_match_comparison hn an h a = (an, "ligeramente")) := by
  unfold analyze_match_comparison
  refine ⟨?_, ?_, ?_, ?_⟩ <;> intro h1 <;> rw [h1] <;> norm_num

/-- Witness for C3 (amended) at concrete totals. -/
theorem C3_amended_boundaries_witness :
    analyze_match_comparison "H" "A" 102 100 = ("Empate tecnico", "") ∧
    analyze_match_comparison "H" "A" 100 102 = ("Empate tecnico", "") ∧
    analyze_match_comparison "H" "A" 105 100 = ("H", "ligeramente") ∧
    analyze_match_comparison "H" "A" 100 105 = ("A", "ligeramente") :=
  ⟨(C3_amended_boundaries "H" "A" 102 100).1 (by norm_num),
   (C3_amended_boundaries "H" "A" 100 102).2.1 (by norm_num),
   (C3_amended_boundaries "H" "A" 105 100).2.2.1 (by norm_num),
   (C3_amended_boundaries "H" "A" 100 105).2.2.2 (by norm_num)⟩

/-- C4: `_clean_stat_value` maps null to 0.0; a string is cleaned by
removing `%` and stripping whitespace and then parsed as a float,
yielding the parsed value on success and 0.0 on parse failure (so "55%"
gives 55.0 and "N/A" gives 0.0); a numeric input is returned unchanged
(cleaning an already-clean numeric value is idempotent). -/
theorem C4_clean_stat_value_spec :
    clean_stat_value RawValue.null = .ok 0 ∧
    (∀ (s : String) (q : ℚ),
      parseFloatChars (stripChars (removePercent s.data)) = some q →
      clean_stat_value (.str s) = .ok q) ∧
    (∀ s : String,
      parseFloatChars (stripChars (removePercent s.data)) = none →
      clean_stat_value (.str s) = .ok 0) ∧
    (∀ q : ℚ, clean_stat_value (.num q) = .ok q) ∧
    clean_stat_value (.str "55%") = .ok 55 ∧
    clean_stat_value (.str "N/A") = .ok 0 := by
  have hnum : stripChars (removePercent "55%".data) = ['5', '5'] := by decide
  have hdig : readDigits ['5', '5'] 0 = (55, 2, []) := by decide
  have hsgn : readSign ['5', '5'] = (1, ['5', '5']) := by decide
  have hna : parseFloatChars (stripChars (removePercent "N/A".data)) = none := by
    decide
  refine ⟨rfl, ?_, ?_, fun q => rfl, ?_, ?_⟩
  · intro s q hp
    simp only [clean_stat_value, hp]
  · intro s hp
    simp only [clean_stat_value, hp]
  · simp only [clean_stat_value, hnum]
    norm_num [parseFloatChars, hdig, hsgn, readExp]
  · simp only [clean_stat_value, hna]

/-- Witness for C4: the parse-success and parse-failure string branches
applied at concrete inputs. -/
theorem C4_clean_stat_value_spec_witness :
    clean_stat_value (.str "60%") = .ok 60 ∧
    clean_stat_value (.str "-") = .ok 0 := by
  have h60 : parseFloatChars (stripChars (removePercent "60%".data)) =
      some 60 := by
    have hnum : stripChars (removePercent "60%".data) = ['6', '0'] := by decide
    have hdig : readDigits ['6', '0'] 0 = (60, 2, []) := by decide
    have hsgn : readSign ['6', '0'] = (1, ['6', '0']) := by decide
    rw [hnum]
    norm_num [parseFloatChars, hdig, hsgn, readExp]

  have hdash : parseFloatChars (stripChars (removePercent "-".data)) = none := by
    decide
  exact ⟨C4_clean_stat_value_spec.2.1 "60%" 60 h60,
    C4_clean_stat_value_spec.2.2.1 "-" hdash⟩

/-! ## Parse-pipeline lemmas -/

theorem clean_ok (v : RawValue) (h : constrainedValue v = true) :
    ∃ q, clean_stat_value v = .ok q := by
  cases v with
  | null => exact ⟨0, rfl⟩
  | str s =>
    cases hp : parseFloatChars (stripChars (removePercent s.data)) with
    | none => exact ⟨0, by simp only [clean_stat_value, hp]⟩
    | some q => exact ⟨q, by simp only [clean_stat_value, hp]⟩
  | num q => exact ⟨q, rfl⟩
  | other => simp [constrainedValue] at h

theorem numericOk_nil : numericOk [] := by
  intro k s h
  simp [alookup] at h

theorem numericOk_insert_num (r : StatRecord) (k : String) (q : ℚ)
    (h : numericOk r) : numericOk (dictInsert r k (StatVal.num q)) := by
  intro k' s hl
  rw [alookup_dictInsert] at hl
  split_ifs at hl with hk
  · simp at hl
  · exact h k' s hl

theorem numericOk_insert_team (r : StatRecord) (s : String)
    (h : numericOk r) : numericOk (dictInsert r "team_name" (StatVal.str s)) := by
  intro k' s' hl
  rw [alookup_dictInsert] at hl
  split_ifs at hl with hk
  · exact hk.symm
  · exact h k' s' hl

theorem foldStats_ok : ∀ (sts : List StatEntry) (r : StatRecord),
    (∀ st ∈ sts, constrainedValue st.value = true) → numericOk r →
    ∃ r', sts.foldlM procStat r = .ok r' ∧ numericOk r' := by
  intro sts
  induction sts with
  | nil =>
    intro r _ hr
    exact ⟨r, by simp, hr⟩
  | cons st t ih =>
    intro r hc hr
    obtain ⟨q, hq⟩ := clean_ok st.value (hc st (by simp))
    obtain ⟨r', hfold, hnum⟩ :=
      ih (dictInsert r (internalName st.stype) (StatVal.num q))
        (fun x hx => hc x (by simp [hx])) (numericOk_insert_num _ _ _ hr)
    exact ⟨r', by simp [procStat, hq, hfold], hnum⟩

theorem procBlock_ok (key : String) (r : StatRecord) (b : TeamBlock)
    (hc : ∀ st ∈ b.statistics, constrainedValue st.value = true)
    (hr : numericOk r) :
    ∃ r', procBlock key r b = .ok r' ∧ numericOk r' ∧
      alookup r' "team_name" = some (StatVal.str (b.team.getD key)) := by
  obtain ⟨r1, hf, hn⟩ := foldStats_ok b.statistics r hc hr
  refine ⟨dictInsert r1 "team_name" (StatVal.str (b.team.getD key)),
    by simp [procBlock, hf], numericOk_insert_team _ _ hn, ?_⟩
  rw [alookup_dictInsert]
  simp

theorem parseLoop_ok : ∀ (t : List TeamBlock) (i : ℕ)
    (s : StatRecord × StatRecord),
    (∀ b ∈ t, ∀ st ∈ b.statistics, constrainedValue st.value = true) →
    numericOk s.1 → numericOk s.2 →
    ∃ hr ar, parseLoop t i s = .ok (hr, ar) ∧ numericOk hr ∧ numericOk ar := by
  intro t
  induction t with
  | nil =>
    intro i s _ h1 h2
    exact ⟨s.1, s.2, by simp [parseLoop], h1, h2⟩
  | cons b t ih =>
    intro i s hc h1 h2
    by_cases hi : i = 0
    · subst hi
      obtain ⟨r', hp, hn, _⟩ := procBlock_ok "home" s.1 b (hc b (by simp)) h1
      obtain ⟨hr, ar, hl, hh, ha⟩ :=
        ih 1 (r', s.2) (fun b' hb' => hc b' (by simp [hb'])) hn h2
      exact ⟨hr, ar, by simp [parseLoop, hp, hl], hh, ha⟩
    · obtain ⟨r', hp, hn, _⟩ := procBlock_ok "away" s.2 b (hc b (by simp)) h2
      obtain ⟨hr, ar, hl, hh, ha⟩ :=
        ih (i + 1) (s.1, r') (fun b' hb' => hc b' (by simp [hb'])) h1 hn
      exact ⟨hr, ar, by simp [parseLoop, hi, hp, hl], hh, ha⟩

theorem parseLoop_pos : ∀ (t : List TeamBlock) (i : ℕ) (hr ar : StatRecord),
    i ≠ 0 → parseLoop t i (hr, ar) =
      (t.foldlM (fun r b => procBlock "away" r b) ar) >>=
        fun ar' => .ok (hr, ar') := by
  intro t
  induction t with
  | nil =>
    intro i hr ar hi
    simp [parseLoop]
  | cons b t ih =>
    intro i hr ar hi
    simp only [parseLoop, if_neg hi, List.foldlM_cons]
    cases hp : procBlock "away" ar b with
    | error e => simp [hp]
    | ok ar' => simp [hp, ih (i + 1) hr ar' (by omega)]

theorem calculate_cps_ok_of_numericOk (r : StatRecord) (h : numericOk r) :
    ∃ b, calculate_cps WEIGHTS r = .ok b := by
  refine ⟨_, calculate_cps_eval WEIGHTS r _ _ _ _ _ _ _ _ _ _ _ _ _ _ _ _ _ _ _ _ _ _
    getW_shots_on_goal getW_shots_inside_box getW_shots_outside_box
    getW_corner_kicks getW_offsides getW_possession getW_pass_accuracy
    getW_total_passes getW_fouls getW_yellow_cards getW_red_cards
    (statGet_eq_of_isNumAt r _ (isNumAt_of_numericOk r h "shots_on_goal" (by decide)))
    (statGet_eq_of_isNumAt r _ (isNumAt_of_numericOk r h "shots_inside_box" (by decide)))
    (statGet_eq_of_isNumAt r _ (isNumAt_of_numericOk r h "shots_outside_box" (by decide)))
    (statGet_eq_of_isNumAt r _ (isNumAt_of_numericOk r h "corner_kicks" (by decide)))
    (statGet_eq_of_isNumAt r _ (isNumAt_of_numericOk r h "offsides" (by decide)))
    (statGet_eq_of_isNumAt r _ (isNumAt_of_numericOk r h "possession" (by decide)))
    (statGet_eq_of_isNumAt r _ (isNumAt_of_numericOk r h "pass_accuracy" (by decide)))
    (statGet_eq_of_isNumAt r _ (isNumAt_of_numericOk r h "total_passes" (by decide)))
    (statGet_eq_of_isNumAt r _ (isNumAt_of_numericOk r h "fouls" (by decide)))
    (statGet_eq_of_isNumAt r _ (isNumAt_of_numericOk r h "yellow_cards" (by decide)))
    (statGet_eq_of_isNumAt r _ (isNumAt_of_numericOk r h "red_cards" (by decide)))⟩

/-- C6: on the documented input domain (every raw statistic value a
number, a string, or null — never a value of another type), the score
engine never raises: `parse_statistics` succeeds, and `calculate_cps`
with the default weight table succeeds on both resulting records. -/
theorem C6_engine_never_raises (sd : List TeamBlock)
    (h : constrainedPayload sd) :
    ∃ w hr ar, parse_statistics sd = .ok (w, hr, ar) ∧
      (∃ bh, calculate_cps WEIGHTS hr = .ok bh) ∧
      (∃ ba, calculate_cps WEIGHTS ar = .ok ba) := by
  by_cases hlen : sd.length < 2
  · exact ⟨true, [], [], by simp [parse_statistics, hlen],
      calculate_cps_ok_of_numericOk [] numericOk_nil,
      calculate_cps_ok_of_numericOk [] numericOk_nil⟩
  · obtain ⟨hr, ar, hl, hh, ha⟩ :=
      parseLoop_ok sd 0 ([], []) h numericOk_nil numericOk_nil
    exact ⟨false, hr, ar, by simp [parse_statistics, hlen, hl],
      calculate_cps_ok_of_numericOk hr hh,
      calculate_cps_ok_of_numericOk ar ha⟩

/-- Witness for C6 at a concrete two-block payload with null, numeric and
percentage-string values. -/
theorem C6_engine_never_raises_witness :
    constrainedPayload
      [⟨some "Alpha", [⟨"Shots on Goal", .num 5⟩, ⟨"Ball Possession", .str "60%"⟩]⟩,
       ⟨none, [⟨"Fouls", .null⟩]⟩] ∧
    (∃ w hr ar, parse_statistics
        [⟨some "Alpha", [⟨"Shots on Goal", .num 5⟩, ⟨"Ball Possession", .str "60%"⟩]⟩,
         ⟨none, [⟨"Fouls", .null⟩]⟩] = .ok (w, hr, ar) ∧
      (∃ bh, calculate_cps WEIGHTS hr = .ok bh) ∧
      (∃ ba, calculate_cps WEIGHTS ar = .ok ba)) :=
  ⟨by decide, C6_engine_never_raises _ (by decide)⟩

/-- C7: a payload with fewer than two team blocks makes
`parse_statistics` warn and return two empty records, and `calculate_cps`
of an empty record is the all-zero breakdown. -/
theorem C7_degenerate_payload (sd : List TeamBlock) (h : sd.length < 2) :
    parse_statistics sd = .ok (true, [], []) ∧
    calculate_cps WEIGHTS [] = .ok ⟨0, 0, 0, 0⟩ := by
  constructor
  · simp [parse_statistics, h]
  · rw [calculate_cps_eval WEIGHTS [] 3.0 2.0 0.5 1.0 (-0.3) 0.4 0.5 0.02
      (-0.5) (-3.0) (-10.0) 0 0 0 0 0 0 0 0 0 0 0
      getW_shots_on_goal getW_shots_inside_box getW_shots_outside_box
      getW_corner_kicks getW_offsides getW_possession getW_pass_accuracy
      getW_total_passes getW_fouls getW_yellow_cards getW_red_cards
      rfl rfl rfl rfl rfl rfl rfl rfl rfl rfl rfl]
    norm_num [Except.ok.injEq, CPSBreakdown.mk.injEq]

/-- Witness for C7 at the empty payload. -/
theorem C7_degenerate_payload_witness :
    parse_statistics [] = .ok (true, [], []) ∧
    calculate_cps WEIGHTS [] = .ok ⟨0, 0, 0, 0⟩ :=
  C7_degenerate_payload [] (by decide)

/-- C10: with more than two team blocks, block 0 goes to the `"home"`
record and every later block is folded (in order) into the single
`"away"` record, with no warning and no rejection; each processed block
ends by overwriting `"team_name"`, and a `dictInsert` always makes the
inserted value the one found by lookup (later blocks overwrite earlier
ones key by key). -/
theorem C10_extra_blocks_go_to_away (b : TeamBlock) (t : List TeamBlock)
    (h : 1 < t.length) :
    parse_statistics (b :: t) =
      (procBlock "home" [] b >>= fun hr =>
        (t.foldlM (fun r blk => procBlock "away" r blk) [] >>= fun ar =>
          .ok (false, hr, ar))) ∧
    (∀ (key : String) (r : StatRecord) (blk : TeamBlock) (r' : StatRecord),
      procBlock key r blk = .ok r' →
      alookup r' "team_name" = some (StatVal.str (blk.team.getD key))) ∧
    (∀ (r : StatRecord) (k : String) (v : StatVal),
      alookup (dictInsert r k v) k = some v) := by
  refine ⟨?_, ?_, ?_⟩
  · have hlen : ¬(b :: t).length < 2 := by
      simp only [List.length_cons]
      omega
    simp only [parse_statistics, if_neg hlen, parseLoop, if_pos rfl]
    cases hp : procBlock "home" [] b with
    | error e => simp [hp]
    | ok hr =>
      rw [excBindOk]
      simp only [hp, excBindOk]
      rw [parseLoop_pos t 1 hr [] (by omega)]
      cases hf : t.foldlM (fun r blk => procBlock "away" r blk) [] with
      | error e => simp [hf]
      | ok ar => simp [hf]
  · intro key r blk r' hp
    cases hf : blk.statistics.foldlM procStat r with
    | error e => simp [procBlock, hf] at hp
    | ok r1 =>
      simp only [procBlock, hf, excBindOk, excPureEqOk, Except.ok.injEq] at hp
      rw [← hp, alookup_dictInsert]
      simp
  · intro r k v
    rw [alookup_dictInsert]
    simp

/-- Witness for C10 at a concrete three-block payload: the third block's
team name ends up as the away record's `"team_name"`. -/
theorem C10_extra_blocks_go_to_away_witness :
    parse_statistics
      [⟨some "One", [⟨"Fouls", .num 1⟩]⟩, ⟨some "Two", [⟨"Fouls", .num 2⟩]⟩,
       ⟨some "Three", [⟨"Fouls", .num 3⟩]⟩] =
      (procBlock "home" [] ⟨some "One", [⟨"Fouls", .num 1⟩]⟩ >>= fun hr =>
        ([⟨some "Two", [⟨"Fouls", .num 2⟩]⟩,
          (⟨some "Three", [⟨"Fouls", .num 3⟩]⟩ : TeamBlock)].foldlM
            (fun r blk => procBlock "away" r blk) [] >>= fun ar =>
          .ok (false, hr, ar))) :=
  (C10_extra_blocks_go_to_away _ _ (by decide)).1

/-- C5: constructor weight overrides merge over the 11 named default
weights by key — keys absent from the override keep their default, keys
present take the override value — but the update is applied to the shared
class-level `WEIGHTS` table, so constructing a second agent with a
different override changes the table (and hence the `calculate_cps`
results) seen by a previously constructed instance. -/
theorem C5_weights_merge_and_shared_mutation :
    WEIGHTS.length = 11 ∧
    (∀ (ov : List (String × ℚ)) (k : String), alookup ov k = none →
      alookup (init WEIGHTS (some ov)) k = alookup WEIGHTS k) ∧
    (∀ (ov : List (String × ℚ)) (k : String) (v : ℚ),
      alookup ov.reverse k = some v →
      alookup (init WEIGHTS (some ov)) k = some v) ∧
    init (init WEIGHTS none) (some [("shots_on_goal", 100)]) ≠
      init WEIGHTS none ∧
    calculate_cps (init (init WEIGHTS none) (some [("shots_on_goal", 100)]))
        [("shots_on_goal", StatVal.num 1)] ≠
      calculate_cps (init WEIGHTS none) [("shots_on_goal", StatVal.num 1)] := by
  have hinit : init WEIGHTS none = WEIGHTS := rfl
  have hT2 : init WEIGHTS (some [("shots_on_goal", (100 : ℚ))]) =
      dictInsert WEIGHTS "shots_on_goal" 100 := rfl
  have hgW : ∀ k, getW (init WEIGHTS (some [("shots_on_goal", (100 : ℚ))])) k =
      if "shots_on_goal" = k then .ok 100 else getW WEIGHTS k := by
    intro k
    rw [hT2]
    unfold getW
    rw [alookup_dictInsert]
    split_ifs <;> rfl
  have e1 : calculate_cps WEIGHTS [("shots_on_goal", StatVal.num 1)] =
      .ok ⟨1 * 3.0 + 0 * 2.0 + 0 * 0.5 + 0 * 1.0 + 0 * (-0.3),
           0 * 0.4 + 0 * 0.5 + 0 * 0.02,
           0 * (-0.5) + 0 * (-3.0) + 0 * (-10.0),
           (1 * 3.0 + 0 * 2.0 + 0 * 0.5 + 0 * 1.0 + 0 * (-0.3)) +
             (0 * 0.4 + 0 * 0.5 + 0 * 0.02) +
             (0 * (-0.5) + 0 * (-3.0) + 0 * (-10.0))⟩ :=
    calculate_cps_eval WEIGHTS _ _ _ _ _ _ _ _ _ _ _ _ _ _ _ _ _ _ _ _ _ _ _
      getW_shots_on_goal getW_shots_inside_box getW_shots_outside_box
      getW_corner_kicks getW_offsides getW_possession getW_pass_accuracy
      getW_total_passes getW_fouls getW_yellow_cards getW_red_cards
      (by simp [statGet, alookup]) (by simp [statGet, alookup])
      (by simp [statGet, alookup]) (by simp [statGet, alookup])
      (by simp [statGet, alookup]) (by simp [statGet, alookup])
      (by simp [statGet, alookup]) (by simp [statGet, alookup])
      (by simp [statGet, alookup]) (by simp [statGet, alookup])
      (by simp [statGet, alookup])
  have e2 : calculate_cps (init WEIGHTS (some [("shots_on_goal", (100 : ℚ))]))
      [("shots_on_goal", StatVal.num 1)] =
      .ok ⟨1 * 100 + 0 * 2.0 + 0 * 0.5 + 0 * 1.0 + 0 * (-0.3),
           0 * 0.4 + 0 * 0.5 + 0 * 0.02,
           0 * (-0.5) + 0 * (-3.0) + 0 * (-10.0),
           (1 * 100 + 0 * 2.0 + 0 * 0.5 + 0 * 1.0 + 0 * (-0.3)) +
             (0 * 0.4 + 0 * 0.5 + 0 * 0.02) +
             (0 * (-0.5) + 0 * (-3.0) + 0 * (-10.0))⟩ :=
    calculate_cps_eval _ _ _ _ _ _ _ _ _ _ _ _ _ _ _ _ _ _ _ _ _ _ _ _
      ((hgW "shots_on_goal").trans (if_pos rfl))
      ((hgW "shots_inside_box").trans
        ((if_neg (by decide)).trans getW_shots_inside_box))
      ((hgW "shots_outside_box").trans
        ((if_neg (by decide)).trans getW_shots_outside_box))
      ((hgW "corner_kicks").trans ((if_neg (by decide)).trans getW_corner_kicks))
      ((hgW "offsides").trans ((if_neg (by decide)).trans getW_offsides))
      ((hgW "possession").trans ((if_neg (by decide)).trans getW_possession))
      ((hgW "pass_accuracy").trans
        ((if_neg (by decide)).trans getW_pass_accuracy))
      ((hgW "total_passes").trans ((if_neg (by decide)).trans getW_total_passes))
      ((hgW "fouls").trans ((if_neg (by decide)).trans getW_fouls))
      ((hgW "yellow_cards").trans ((if_neg (by decide)).trans getW_yellow_cards))
      ((hgW "red_cards").trans ((if_neg (by decide)).trans getW_red_cards))
      (by simp [statGet, alookup]) (by simp [statGet, alookup])
      (by simp [statGet, alookup]) (by simp [statGet, alookup])
      (by simp [statGet, alookup]) (by simp [statGet, alookup])
      (by simp [statGet, alookup]) (by simp [statGet, alookup])
      (by simp [statGet, alookup]) (by simp [statGet, alookup])
      (by simp [statGet, alookup])
  refine ⟨by decide, ?_, ?_, ?_, ?_⟩
  · intro ov k h
    by_cases hov : ov.isEmpty
    · simp [init, hov]
    · have hrev : alookup ov.reverse k = none := by
        rw [alookup_eq_none_iff] at h ⊢
        simpa using h
      simp [init, hov, alookup_dictUpdate, hrev]
  · intro ov k v h
    by_cases hov : ov.isEmpty
    · rw [List.isEmpty_iff] at hov
      subst hov
      simp [alookup] at h
    · simp [init, hov, alookup_dictUpdate, h]
  · rw [hinit]
    intro heq
    have := congrArg (fun w => alookup w "shots_on_goal") heq
    rw [hT2] at this
    simp only [alookup_dictInsert, if_pos rfl] at this
    have hW : alookup WEIGHTS "shots_on_goal" = some 3.0 := by
      simp [WEIGHTS, alookup]
    simp only [Option.some.injEq, hW, if_true] at this
    norm_num at this
  · rw [hinit, e1, e2]
    intro heq
    simp only [Except.ok.injEq, CPSBreakdown.mk.injEq] at heq
    have := heq.1
    norm_num at this

/-- Witness for C5's merge conjuncts at a concrete override. -/
theorem C5_weights_merge_and_shared_mutation_witness :
    alookup (init WEIGHTS (some [("fouls", -1)])) "red_cards" =
      alookup WEIGHTS "red_cards" ∧
    alookup (init WEIGHTS (some [("fouls", -1)])) "fouls" = some (-1) :=
  ⟨C5_weights_merge_and_shared_mutation.2.1 [("fouls", -1)] "red_cards"
      (by decide),
   C5_weights_merge_and_shared_mutation.2.2.1 [("fouls", -1)] "fouls" (-1)
      (by simp [alookup])⟩

/-- C8 counterexample: the label lookup table does not have 14 entries
(it has 16). -/
theorem C8_counterexample_table_size : STAT_MAPPING.length ≠ 14 := by decide

/-- C8 (amended): label translation maps known provider labels to
canonical internal names via the fixed 16-entry lookup table, and every
unknown label is normalized by lower-casing and replacing spaces with
underscores, otherwise passing through unchanged. -/
theorem C8_label_translation_amended :
    STAT_MAPPING.length = 16 ∧
    (∀ t v, alookup STAT_MAPPING t = some v → internalName t = v) ∧
    (∀ t, alookup STAT_MAPPING t = none → internalName t = normalizeLabel t) := by
  refine ⟨by decide, ?_, ?_⟩
  · intro t v h
    simp [internalName, h]
  · intro t h
    simp [internalName, h]

/-- Witness for C8: one known label and one unknown label. -/
theorem C8_label_translation_amended_witness :
    internalName "Shots on Goal" = "shots_on_goal" ∧
    internalName "Expected Goals" = normalizeLabel "Expected Goals" :=
  ⟨C8_label_translation_amended.2.1 "Shots on Goal" "shots_on_goal" (by decide),
   C8_label_translation_amended.2.2 "Expected Goals" (by decide)⟩

/-- C9: the verdict generator is total over every combination of goal
outcome and comparator result: it always produces non-empty verdict text,
and the trailing `"Analisis completado."` fallback (the would-be "no
verdict" case) is unreachable — the five verdict branches cover every
input. -/
theorem C9_verdict_total_and_nonempty (home away : String) (hg ag : ℤ)
    (better : String) (diff ht at' : ℚ) :
    generate_verdict home away hg ag better diff ht at' ≠ "" ∧
    generate_verdict home away hg ag better diff ht at' ≠
      "Analisis completado." := by
  have l0 : ("" : String).length = 0 := by decide
  have lA : ("Analisis completado.").length = 20 := by decide
  have l1 : 20 < (" gano y merecio el triunfo. Su CPS de ").length := by decide
  have l3 : 20 < (" se llevo los 3 puntos pero ").length := by decide
  have l4 : 20 < (" fue el mejor equipo con un CPS de ").length := by decide
  have l5 : 20 < ("Empate con sabor a poco para ").length := by decide
  have l6 : 0 < ("Partido parejo. ").length := by decide
  have l7 : 0 < ("Resultado injusto! ").length := by decide
  unfold generate_verdict
  dsimp only
  split_ifs <;>
    constructor <;>
    first
      | decide
      | (intro heq
         have hl := congrArg String.length heq
         simp only [String.length_append] at hl
         omega)
      | (exfalso; simp_all [pyTruthy]; done)

end AnalystAgent

end ChatDT
